import Mathlib

/-!
Verification development for the realtime order-updates backend
(`backend/websocket_manager.py`, `backend/database.py`, `backend/main.py`,
`backend/models.py`).

Connections are opaque handles; we model them as natural numbers.
The `ConnectionManager` state mirrors the two fields of the Python class:
`active_connections` is a Python list (order and multiplicity preserved)
and `connection_count` a Python integer.

Send failures are modelled by a function `fail : Nat → Bool` saying, for
each connection handle, whether `send_text` / `send_json` raises on it
during the operation under consideration.  Registrations that happen
concurrently with a broadcast (at the `await send` suspension points) are
modelled by `arrivals`: the i-th entry lists the connections whose
`connect` runs during the i-th send of the broadcast loop.  Python list
iteration is index-based, so elements appended during iteration are still
visited; the model reflects that.
-/

/-- State of `ConnectionManager` (websocket_manager.py, lines 10-12). -/
structure ConnectionManager where
  active_connections : List Nat
  connection_count : Int
deriving Repr, DecidableEq

/-- `ConnectionManager()` constructor: empty list, count 0. -/
def initial_manager : ConnectionManager := ⟨[], 0⟩

/-- `connect` (websocket_manager.py, lines 14-18): accept the handshake,
append the websocket to the list and increment the count.  There is no
membership test: appending is unconditional. -/
def connect (st : ConnectionManager) (c : Nat) : ConnectionManager :=
  ⟨st.active_connections ++ [c], st.connection_count + 1⟩

/-- `disconnect` (websocket_manager.py, lines 20-24): remove the websocket
and decrement the count only when present (`if websocket in
self.active_connections`).  `list.remove` deletes the first occurrence,
which is `List.erase`. -/
def disconnect (st : ConnectionManager) (c : Nat) : ConnectionManager :=
  if c ∈ st.active_connections then
    ⟨st.active_connections.erase c, st.connection_count - 1⟩
  else st

/-- `send_json_personal` (websocket_manager.py, lines 33-38): try the send;
on any exception, log and `disconnect` the websocket.  `ok` is true when
the send succeeds. -/
def send_json_personal (st : ConnectionManager) (c : Nat) (ok : Bool) :
    ConnectionManager :=
  if ok then st else disconnect st c

/-- The broadcast `for` loop when no further registrations interleave:
visit each connection in order, attempt the send, and record the failing
ones in the `disconnected` accumulator.  Returns (attempted, failed). -/
def sweep (fail : Nat → Bool) : List Nat → List Nat × List Nat
  | [] => ([], [])
  | c :: rest =>
      (c :: (sweep fail rest).1,
       if fail c then c :: (sweep fail rest).2 else (sweep fail rest).2)

/-- The broadcast `for` loop over the live `active_connections` list, with
`arrivals` giving the connections appended (by concurrent `connect` calls)
during each successive send.  Python list iterators are index-based, so an
element appended while the loop is suspended in `await send_text` is still
visited; the recursion therefore continues into `rest ++ a`.  Returns
(attempted, failed), where attempted is exactly the final contents of the
iterated list. -/
def broadcastLoop (fail : Nat → Bool) : List Nat → List (List Nat) → List Nat × List Nat
  | l, [] => sweep fail l
  | [], _ :: _ => ([], [])
  | c :: rest, a :: arrs =>
      (c :: (broadcastLoop fail (rest ++ a) arrs).1,
       if fail c then c :: (broadcastLoop fail (rest ++ a) arrs).2
       else (broadcastLoop fail (rest ++ a) arrs).2)

/-- `broadcast_json` (websocket_manager.py, lines 40-56): return at once if
the list is empty; otherwise serialize, iterate the live list attempting
every send, collect failing connections, then `disconnect` each of them.
Interleaved `connect` calls (the `arrivals`) append to the live list and
increment the count; the failing connections are removed afterwards.
Returns the new state together with the list of connections to which
delivery was attempted. -/
def broadcast_json (st : ConnectionManager) (fail : Nat → Bool)
    (arrivals : List (List Nat)) : ConnectionManager × List Nat :=
  if st.active_connections = [] then (st, [])
  else
    let p := broadcastLoop fail st.active_connections arrivals
    let mid : ConnectionManager :=
      ⟨p.1, st.connection_count +
        ((p.1.length : Int) - (st.active_connections.length : Int))⟩
    (p.2.foldl disconnect mid, p.1)

/-- A sequence of broadcasts (no interleaved registrations): final state
and the list of recipient sets (attempted lists), one per broadcast. -/
def broadcast_seq (st : ConnectionManager) (gs : List (Nat → Bool)) :
    ConnectionManager × List (List Nat) :=
  match gs with
  | [] => (st, [])
  | g :: rest =>
      let p := broadcast_json st g []
      let q := broadcast_seq p.1 rest
      (q.1, p.2 :: q.2)

/-- One registry operation, for stating invariants over arbitrary call
sequences against the manager. -/
inductive ManagerOp where
  | connectOp (c : Nat)
  | disconnectOp (c : Nat)
  | sendPersonalOp (c : Nat) (ok : Bool)
  | broadcastOp (fail : Nat → Bool) (arrivals : List (List Nat))

def run_op (st : ConnectionManager) : ManagerOp → ConnectionManager
  | ManagerOp.connectOp c => connect st c
  | ManagerOp.disconnectOp c => disconnect st c
  | ManagerOp.sendPersonalOp c ok => send_json_personal st c ok
  | ManagerOp.broadcastOp f a => (broadcast_json st f a).1

def run_ops (st : ConnectionManager) (ops : List ManagerOp) : ConnectionManager :=
  ops.foldl run_op st

/-- Response of `GET /api/health` (main.py, lines 189-196). -/
structure HealthResponse where
  status : String
  connected_clients : Int
  database : String
deriving Repr, DecidableEq

/-- `health_check` (main.py, lines 189-196): reports
`manager.connection_count` as `connected_clients`. -/
def health_check (st : ConnectionManager) (dbUp : Bool) : HealthResponse :=
  ⟨"healthy", st.connection_count, if dbUp then "connected" else "disconnected"⟩

/-- JSON values, for the payloads and outbound messages. -/
inductive Json where
  | null
  | bool (b : Bool)
  | num (n : Int)
  | str (s : String)
  | arr (elems : List Json)
  | obj (fields : List (String × Json))

def lookupField : List (String × Json) → String → Option Json
  | [], _ => none
  | (k, v) :: rest, key => if k = key then some v else lookupField rest key

/-- Python subscript / `.get` on a decoded JSON value: key lookup succeeds
only on an object holding the key (otherwise `change_data[key]` raises
TypeError or KeyError, and `.get` returns None). -/
def jlookup (j : Json) (key : String) : Option Json :=
  match j with
  | Json.obj fields => lookupField fields key
  | _ => none

/-- One outbound push-channel send: either to a single connection
(`send_json_personal`) or to all (`broadcast_json`). -/
inductive SendAction where
  | personal (target : Nat) (msg : Json)
  | broadcastAll (msg : Json)

/-- Change fan-out message shape (database.py, lines 56-59). -/
def database_change_msg (d : Json) : Json :=
  Json.obj [("type", Json.str "database_change"), ("data", d)]

/-- Initial full-state message shape (main.py, lines 70-73). -/
def initial_data_msg (orders : List Json) : Json :=
  Json.obj [("type", Json.str "initial_data"), ("data", Json.arr orders)]

/-- Client-request error message shape (main.py, lines 86-89 etc.). -/
def error_msg (m : String) : Json :=
  Json.obj [("type", Json.str "error"), ("message", Json.str m)]

/-- The body of the `try` block of `handle_notification` (database.py,
lines 52-59): `json.loads(payload)` (its result is `none` for non-JSON
text, in which case a JSONDecodeError is raised), then
`change_data[&quot;operation&quot;]` in the log line (KeyError / TypeError
when the key is absent or the value is not an object), then the broadcast
of the database_change message. -/
def handle_notification_body (loaded : Option Json) :
    Except String (List SendAction) :=
  match loaded with
  | none => Except.error "JSONDecodeError"
  | some j =>
      match jlookup j "operation" with
      | none => Except.error "KeyError operation"
      | some _ => Except.ok [SendAction.broadcastAll (database_change_msg j)]

/-- `handle_notification` (database.py, lines 50-63): the whole body is
wrapped in `try ... except Exception`, which logs the error and returns,
so the handler itself never raises and a failing payload produces no
sends. -/
def handle_notification (loaded : Option Json) : List SendAction :=
  match handle_notification_body loaded with
  | Except.ok acts => acts
  | Except.error _ => []

/-- Successive notifications delivered to `handle_notification`; the
handler keeps no state between calls. -/
def process_notifications (payloads : List (Option Json)) : List SendAction :=
  payloads.foldr (fun p acc => handle_notification p ++ acc) []

/-- Whether the decode steps of `handle_notification` succeed on a
payload. -/
def decodes_ok (loaded : Option Json) : Bool :=
  match loaded with
  | none => false
  | some j => (jlookup j "operation").isSome

/-- The initial push on attach (main.py, lines 68-73): a personal
initial_data message to the new connection. -/
def websocket_attach (ws : Nat) (orders : List Json) : SendAction :=
  SendAction.personal ws (initial_data_msg orders)

/-- One iteration of the receive loop of `websocket_endpoint` (main.py,
lines 75-111): route on `data.get("type")`; for the three mutation kinds,
a raised exception inside the `try` block (modelled as `opFail = some e`,
with `e` the text of the exception) produces exactly one personal error
message to the originating websocket; a successful mutation sends nothing
directly (its effect reaches clients through the notification path), and
an unknown type sends nothing. -/
def websocket_step (ws : Nat) (data : Json) (opFail : Option String) :
    List SendAction :=
  match jlookup data "type" with
  | some (Json.str t) =>
      if t = "create_order" then
        match opFail with
        | some e => [SendAction.personal ws (error_msg ("Failed to create order: " ++ e))]
        | none => []
      else if t = "update_order" then
        match opFail with
        | some e => [SendAction.personal ws (error_msg ("Failed to update order: " ++ e))]
        | none => []
      else if t = "delete_order" then
        match opFail with
        | some e => [SendAction.personal ws (error_msg ("Failed to delete order: " ++ e))]
        | none => []
      else []
  | _ => []

/-- The environment the database startup runs against: whether
`asyncpg.create_pool` succeeds, whether the dedicated
`asyncpg.connect` for the listener succeeds, and whether `add_listener`
succeeds. -/
structure PgEnv where
  pool_ok : Bool
  listener_conn_ok : Bool
  add_listener_ok : Bool
deriving Repr, DecidableEq

inductive DbInitError where
  | poolCreateFailed
  | listenerConnectFailed
  | addListenerFailed
deriving Repr, DecidableEq

/-- `setup_notification_listener` (database.py, lines 38-48): the
`except` clause logs and re-raises, so failures pass through unchanged. -/
def setup_notification_listener (env : PgEnv) : Except DbInitError Unit :=
  if env.listener_conn_ok = false then Except.error DbInitError.listenerConnectFailed
  else if env.add_listener_ok = false then Except.error DbInitError.addListenerFailed
  else Except.ok ()

/-- `Database.initialize` (database.py, lines 19-36): create the pool,
then set up the listener; the `except` clause logs and re-raises. -/
def initializeDatabase (env : PgEnv) : Except DbInitError Unit :=
  if env.pool_ok = false then Except.error DbInitError.poolCreateFailed
  else setup_notification_listener env

inductive StartupError where
  | missingDatabaseUrl
  | dbInit (e : DbInitError)
deriving Repr, DecidableEq

/-- The startup half of `lifespan` (main.py, lines 29-41): missing
DATABASE_URL raises ValueError; `await db.initialize()` is not guarded,
so its error propagates and the `yield` (serving traffic) is never
reached. -/
def lifespan_startup (database_url : Option String) (env : PgEnv) :
    Except StartupError Unit :=
  match database_url with
  | none => Except.error StartupError.missingDatabaseUrl
  | some _ =>
      match initializeDatabase env with
      | Except.error e => Except.error (StartupError.dbInit e)
      | Except.ok _ => Except.ok ()

/-- The process serves traffic only when startup reached the `yield`. -/
def serves_requests (r : Except StartupError Unit) : Bool :=
  match r with
  | Except.ok _ => true
  | Except.error _ => false

/-- Top-level names bound by executing models.py: note the class is named
`DatabaseChangE` (models.py, line 31). -/
def models_defined_names : List String :=
  ["OrderStatus", "OrderBase", "OrderCreate", "OrderUpdate", "Order", "DatabaseChangE"]

/-- The names database.py requests from models (database.py, line 7). -/
def database_import_request : List String :=
  ["Order", "OrderCreate", "OrderUpdate", "DatabaseChange"]

/-- The names main.py requests from models (main.py, line 12). -/
def main_models_import_request : List String :=
  ["Order", "OrderCreate", "OrderUpdate"]

/-- `from M import a, b, ...`: the first requested name not bound in the
module, if any; such a name makes the statement raise ImportError. -/
def missing_import (defined requested : List String) : Option String :=
  requested.find? (fun n => !(defined.contains n))

/-- Importing database.py runs its `from models import ...` line; the
result is the missing name raised as ImportError, if any. -/
def import_database_module_error : Option String :=
  missing_import models_defined_names database_import_request

/-- Importing main.py runs `from models import ...` and then
`from database import ...`, which first imports database.py. -/
def import_main_module_error : Option String :=
  match missing_import models_defined_names main_models_import_request with
  | some n => some n
  | none => import_database_module_error

inductive AppError where
  | importError (missing_name : String)
  | startupError (e : StartupError)
deriving Repr, DecidableEq

/-- Starting the application: the interpreter first imports main.py (an
ImportError aborts before any server is created), and only then runs the
lifespan startup. -/
def app_start (url : Option String) (env : PgEnv) : Except AppError Unit :=
  match import_main_module_error with
  | some n => Except.error (AppError.importError n)
  | none =>
      match lifespan_startup url env with
      | Except.error e => Except.error (AppError.startupError e)
      | Except.ok _ => Except.ok ()

/-- `OrderUpdate` (models.py, lines 19-22): all fields optional. -/
structure OrderUpdate where
  customer_name : Option String
  product_name : Option String
  status : Option String
deriving Repr, DecidableEq

/-- A stored order row (id plus the mutable fields). -/
structure OrderRec where
  id : Int
  customer_name : String
  product_name : String
  status : String
deriving Repr, DecidableEq

/-- The dynamic SET clause built by `update_order` (database.py, lines
94-110): one (column, value) pair per field that is not None, in source
order. -/
def update_fields_of (u : OrderUpdate) : List (String × String) :=
  (match u.customer_name with
   | some v => [("customer_name", v)]
   | none => []) ++
  (match u.product_name with
   | some v => [("product_name", v)]
   | none => []) ++
  (match u.status with
   | some v => [("status", v)]
   | none => [])

def apply_update_field (r : OrderRec) (f : String × String) : OrderRec :=
  if f.1 = "customer_name" then { r with customer_name := f.2 }
  else if f.1 = "product_name" then { r with product_name := f.2 }
  else if f.1 = "status" then { r with status := f.2 }
  else r

/-- `Database.update_order` (database.py, lines 92-127): when no field is
set the function returns None before acquiring a connection, so no SQL
statement is issued and the store is untouched (hence the store-side
trigger fires no change event).  Otherwise it runs one UPDATE ...
RETURNING, which returns the updated row or None when no row matched.
Returns (result row, SQL statements issued, new store contents). -/
def db_update_order (store : List OrderRec) (oid : Int) (u : OrderUpdate) :
    Option OrderRec × List String × List OrderRec :=
  if update_fields_of u = [] then (none, [], store)
  else
    match store.find? (fun r => r.id == oid) with
    | some r =>
        let r2 := (update_fields_of u).foldl apply_update_field r
        (some r2, ["UPDATE orders"], store.map (fun x => if x.id == oid then r2 else x))
    | none => (none, ["UPDATE orders"], store)

inductive ApiResult where
  | ok (body : OrderRec)
  | httpError (status : Nat) (detail : String)
deriving Repr, DecidableEq

/-- `PUT /api/orders/id` (main.py, lines 161-173): a None result from
`database.update_order` becomes HTTP 404 "Order not found". -/
def put_update_order (store : List OrderRec) (oid : Int) (u : OrderUpdate) :
    ApiResult × List String × List OrderRec :=
  match db_update_order store oid u with
  | (some r, qs, st2) => (ApiResult.ok r, qs, st2)
  | (none, qs, st2) => (ApiResult.httpError 404 "Order not found", qs, st2)

/-! ## Helper lemmas about the broadcast loop and disconnect -/

theorem sweep_fst (fail : Nat → Bool) (l : List Nat) : (sweep fail l).1 = l := by
  induction l with
  | nil => rfl
  | cons c rest ih => simp [sweep, ih]

theorem sweep_snd (fail : Nat → Bool) (l : List Nat) :
    (sweep fail l).2 = l.filter fail := by
  induction l with
  | nil => rfl
  | cons c rest ih =>
    simp only [sweep, List.filter_cons]
    by_cases h : fail c <;> simp [h, ih]

theorem broadcastLoop_fst_subset (fail : Nat → Bool) :
    ∀ (arrs : List (List Nat)) (l : List Nat), l ⊆ (broadcastLoop fail l arrs).1 := by
  intro arrs
  induction arrs with
  | nil => intro l; simp [broadcastLoop, sweep_fst]
  | cons a arrs ih =>
    intro l
    cases l with
    | nil => simp
    | cons c rest =>
      simp only [broadcastLoop]
      intro x hx
      rcases List.mem_cons.mp hx with h | h
      · exact h ▸ List.mem_cons_self _ _
      · exact List.mem_cons_of_mem _ (ih (rest ++ a) (List.mem_append_left a h))

theorem broadcastLoop_snd_filter (fail : Nat → Bool) :
    ∀ (arrs : List (List Nat)) (l : List Nat),
      (broadcastLoop fail l arrs).2 = (broadcastLoop fail l arrs).1.filter fail := by
  intro arrs
  induction arrs with
  | nil => intro l; simp [broadcastLoop, sweep_fst, sweep_snd]
  | cons a arrs ih =>
    intro l
    cases l with
    | nil => simp [broadcastLoop]
    | cons c rest =>
      simp only [broadcastLoop, List.filter_cons]
      by_cases h : fail c <;> simp [h, ih]

theorem disconnect_active_subset (st : ConnectionManager) (c : Nat) :
    (disconnect st c).active_connections ⊆ st.active_connections := by
  unfold disconnect
  split
  · exact List.erase_subset c st.active_connections
  · exact fun x h => h

theorem foldl_disconnect_subset :
    ∀ (todo : List Nat) (s : ConnectionManager),
      (todo.foldl disconnect s).active_connections ⊆ s.active_connections := by
  intro todo
  induction todo with
  | nil => intro s; exact fun x h => h
  | cons c ts ih =>
    intro s
    exact fun x hx => disconnect_active_subset s c (ih (disconnect s c) hx)

theorem foldl_disconnect_count_eq_zero (w : Nat) :
    ∀ (todo : List Nat) (s : ConnectionManager),
      s.active_connections.count w ≤ todo.count w →
      (todo.foldl disconnect s).active_connections.count w = 0 := by
  intro todo
  induction todo with
  | nil =>
    intro s h
    simp only [List.count_nil, Nat.le_zero] at h
    simpa using h
  | cons c ts ih =>
    intro s h
    simp only [List.foldl_cons]
    apply ih
    simp only [List.count_cons] at h
    unfold disconnect
    by_cases hc : c = w
    · subst hc
      simp only [beq_self_eq_true, if_true] at h
      split
      · rename_i hm
        simp only [List.count_erase_self]
        omega
      · rename_i hm
        simp [List.count_eq_zero_of_not_mem hm]
    · rw [beq_false_of_ne hc] at h
      simp only [Bool.false_eq_true, if_false] at h
      split
      · rename_i hm
        rw [List.count_erase_of_ne (Ne.symm hc)]
        omega
      · omega

theorem foldl_disconnect_not_mem (w : Nat) (todo : List Nat) (s : ConnectionManager)
    (h : s.active_connections.count w ≤ todo.count w) :
    w ∉ (todo.foldl disconnect s).active_connections :=
  List.count_eq_zero.mp (foldl_disconnect_count_eq_zero w todo s h)

theorem mem_foldl_disconnect (w : Nat) :
    ∀ (todo : List Nat) (s : ConnectionManager),
      w ∈ s.active_connections → w ∉ todo →
      w ∈ (todo.foldl disconnect s).active_connections := by
  intro todo
  induction todo with
  | nil => intro s hw _; exact hw
  | cons c ts ih =>
    intro s hw hnt
    have hne : w ≠ c := fun he => hnt (he ▸ List.mem_cons_self c ts)
    have hw2 : w ∈ (disconnect s c).active_connections := by
      unfold disconnect
      split
      · exact (List.mem_erase_of_ne hne).mpr hw
      · exact hw
    exact ih (disconnect s c) hw2 (fun hm => hnt (List.mem_cons_of_mem c hm))

theorem broadcast_json_empty (st : ConnectionManager) (fail : Nat → Bool)
    (arrs : List (List Nat)) (h : st.active_connections = []) :
    broadcast_json st fail arrs = (st, []) := by
  simp [broadcast_json, h]

theorem broadcast_json_attempted (st : ConnectionManager) (fail : Nat → Bool)
    (h : st.active_connections ≠ []) :
    (broadcast_json st fail []).2 = st.active_connections := by
  simp [broadcast_json, h, broadcastLoop, sweep_fst]

theorem broadcast_json_state_subset (st : ConnectionManager) (fail : Nat → Bool) :
    ((broadcast_json st fail []).1).active_connections ⊆ st.active_connections := by
  by_cases h : st.active_connections = []
  · simp [broadcast_json, h]
  · simp only [broadcast_json, if_neg h]
    intro x hx
    have h2 := foldl_disconnect_subset _ _ hx
    simpa [broadcastLoop, sweep_fst] using h2

theorem broadcast_seq_not_mem (w : Nat) :
    ∀ (gs : List (Nat → Bool)) (s : ConnectionManager),
      w ∉ s.active_connections →
      (∀ att ∈ (broadcast_seq s gs).2, w ∉ att) ∧
      w ∉ ((broadcast_seq s gs).1).active_connections := by
  intro gs
  induction gs with
  | nil =>
    intro s hs
    exact ⟨fun att hatt => absurd hatt (List.not_mem_nil att), hs⟩
  | cons g rest ih =>
    intro s hs
    have hatt : w ∉ (broadcast_json s g []).2 := by
      by_cases he : s.active_connections = []
      · simp [broadcast_json_empty s g [] he]
      · rw [broadcast_json_attempted s g he]; exact hs
    have hstate : w ∉ ((broadcast_json s g []).1).active_connections :=
      fun hm => hs (broadcast_json_state_subset s g hm)
    obtain ⟨h1, h2⟩ := ih (broadcast_json s g []).1 hstate
    constructor
    · intro att hmem
      simp only [broadcast_seq] at hmem
      rcases List.mem_cons.mp hmem with he | he
      · exact he ▸ hatt
      · exact h1 att he
    · simpa only [broadcast_seq] using h2

/-! ## The count invariant -/

/-- The invariant relating the two fields of `ConnectionManager`. -/
def countInv (st : ConnectionManager) : Prop :=
  st.connection_count = (st.active_connections.length : Int)

theorem countInv_initial : countInv initial_manager := rfl

theorem countInv_connect (st : ConnectionManager) (c : Nat) (h : countInv st) :
    countInv (connect st c) := by
  unfold countInv connect at *
  simp only [List.length_append, List.length_cons, List.length_nil]
  push_cast
  omega

theorem countInv_disconnect (st : ConnectionManager) (c : Nat) (h : countInv st) :
    countInv (disconnect st c) := by
  unfold countInv disconnect at *
  split
  · rename_i hm
    have hl := List.length_erase_of_mem hm
    have hp := List.length_pos_of_mem hm
    simp only [hl]
    push_cast [Nat.cast_sub hp]
    omega
  · exact h

theorem countInv_foldl_disconnect :
    ∀ (todo : List Nat) (s : ConnectionManager),
      countInv s → countInv (todo.foldl disconnect s) := by
  intro todo
  induction todo with
  | nil => intro s h; exact h
  | cons c ts ih =>
    intro s h
    exact ih (disconnect s c) (countInv_disconnect s c h)

theorem countInv_send_json_personal (st : ConnectionManager) (c : Nat) (ok : Bool)
    (h : countInv st) : countInv (send_json_personal st c ok) := by
  unfold send_json_personal
  split
  · exact h
  · exact countInv_disconnect st c h

theorem countInv_broadcast_json (st : ConnectionManager) (fail : Nat → Bool)
    (arrs : List (List Nat)) (h : countInv st) :
    countInv (broadcast_json st fail arrs).1 := by
  by_cases he : st.active_connections = []
  · rw [broadcast_json_empty st fail arrs he]; exact h
  · simp only [broadcast_json, if_neg he]
    apply countInv_foldl_disconnect
    unfold countInv at *
    simp only []
    omega

theorem countInv_run_op (st : ConnectionManager) (op : ManagerOp) (h : countInv st) :
    countInv (run_op st op) := by
  cases op with
  | connectOp c => exact countInv_connect st c h
  | disconnectOp c => exact countInv_disconnect st c h
  | sendPersonalOp c ok => exact countInv_send_json_personal st c ok h
  | broadcastOp f a => exact countInv_broadcast_json st f a h

theorem countInv_run_ops :
    ∀ (ops : List ManagerOp) (st : ConnectionManager),
      countInv st → countInv (run_ops st ops) := by
  intro ops
  induction ops with
  | nil => intro st h; exact h
  | cons op rest ih =>
    intro st h
    exact ih (run_op st op) (countInv_run_op st op h)

/-- Registering a list of connections appends them in order. -/
theorem run_connects_active :
    ∀ (cs : List Nat) (s : ConnectionManager),
      (run_ops s (cs.map ManagerOp.connectOp)).active_connections =
        s.active_connections ++ cs := by
  intro cs
  induction cs with
  | nil => intro s; simp [run_ops]
  | cons c ts ih =>
    intro s
    simp only [List.map_cons, run_ops, List.foldl_cons]
    have := ih (connect s c)
    simp only [run_ops] at this
    rw [show run_op s (ManagerOp.connectOp c) = connect s c from rfl, this,
      connect, List.append_assoc, List.singleton_append]

/-! ## Claims -/

/-- Claim C1: for every change event and every registry state, when a send
to one connection raises during `broadcast_json`, that connection is
disconnected from the registry afterwards (and therefore appears in no
recipient set of any subsequent broadcast), while delivery is still
attempted to every connection of the same broadcast; and
`send_json_personal` on failure unregisters through the same `disconnect`
path. -/
theorem c1_send_failure_unregisters (st : ConnectionManager) (w : Nat)
    (fail : Nat → Bool) (hmem : w ∈ st.active_connections) (hfail : fail w = true) :
    (broadcast_json st fail []).2 = st.active_connections ∧
    w ∉ ((broadcast_json st fail []).1).active_connections ∧
    (∀ gs : List (Nat → Bool),
      ∀ att ∈ (broadcast_seq ((broadcast_json st fail []).1) gs).2, w ∉ att) ∧
    (∀ s : ConnectionManager, send_json_personal s w false = disconnect s w) := by
  have hne : st.active_connections ≠ [] := List.ne_nil_of_mem hmem
  have hatt := broadcast_json_attempted st fail hne
  have hout : w ∉ ((broadcast_json st fail []).1).active_connections := by
    simp only [broadcast_json, if_neg hne]
    apply foldl_disconnect_not_mem
    simp only [broadcastLoop, sweep_fst, sweep_snd]
    rw [List.count_filter hfail]
  refine ⟨hatt, hout, ?_, fun s => rfl⟩
  intro gs att hattm
  exact (broadcast_seq_not_mem w gs _ hout).1 att hattm

theorem c1_witness :
    (broadcast_json ⟨[4, 9], 2⟩ (fun c => c == 4) []).2 = [4, 9] ∧
    4 ∉ ((broadcast_json ⟨[4, 9], 2⟩ (fun c => c == 4) []).1).active_connections ∧
    (∀ gs : List (Nat → Bool),
      ∀ att ∈ (broadcast_seq ((broadcast_json ⟨[4, 9], 2⟩ (fun c => c == 4) []).1) gs).2,
        4 ∉ att) ∧
    (∀ s : ConnectionManager, send_json_personal s 4 false = disconnect s 4) :=
  c1_send_failure_unregisters ⟨[4, 9], 2⟩ 4 (fun c => c == 4) (by decide) (by decide)

/-- Claim C2: a payload that `handle_notification` cannot decode (non-JSON
text, or JSON without an operation key) raises inside the try block, is
caught and discarded producing no sends, leaves no trace for later calls
(the handler is stateless), and a well-formed payload right after it is
still decoded and broadcast. -/
theorem c2_malformed_payload_isolated (bad : Option Json) (j op : Json)
    (rest : List (Option Json))
    (hbad : decodes_ok bad = false) (hgood : jlookup j "operation" = some op) :
    (∃ e, handle_notification_body bad = Except.error e) ∧
    handle_notification bad = [] ∧
    process_notifications (bad :: rest) = process_notifications rest ∧
    process_notifications [bad, some j] =
      [SendAction.broadcastAll (database_change_msg j)] := by
  have herr : ∃ e, handle_notification_body bad = Except.error e := by
    cases bad with
    | none => exact ⟨"JSONDecodeError", rfl⟩
    | some b =>
      simp only [decodes_ok] at hbad
      cases hj : jlookup b "operation" with
      | none => exact ⟨"KeyError operation", by simp [handle_notification_body, hj]⟩
      | some v => rw [hj] at hbad; simp at hbad
  obtain ⟨e, he⟩ := herr
  have hnil : handle_notification bad = [] := by
    simp [handle_notification, he]
  refine ⟨⟨e, he⟩, hnil, ?_, ?_⟩
  · simp [process_notifications, hnil]
  · simp only [process_notifications, List.foldr_cons, List.foldr_nil]
    rw [hnil]
    simp [handle_notification, handle_notification_body, hgood]

theorem c2_witness :
    (∃ e, handle_notification_body none = Except.error e) ∧
    handle_notification none = [] ∧
    process_notifications [none] = process_notifications [] ∧
    process_notifications [none, some (Json.obj [("operation", Json.str "INSERT")])] =
      [SendAction.broadcastAll
        (database_change_msg (Json.obj [("operation", Json.str "INSERT")]))] :=
  c2_malformed_payload_isolated none (Json.obj [("operation", Json.str "INSERT")])
    (Json.str "INSERT") [] rfl rfl

/-- Claim C3 counterexample: the claim says a connection registered while
a broadcast is in flight does not receive the in-flight event.  In the
code `broadcast_json` iterates `self.active_connections` itself, not a
snapshot; starting from registry [0], when connection 1 registers during
the send to 0, the iteration also visits 1: the attempted recipient list
of the in-flight broadcast is [0, 1], so connection 1 does receive the
in-flight event. -/
theorem c3_counterexample :
    (broadcast_json ⟨[0], 1⟩ (fun _ => false) [[1]]).2 = [0, 1] ∧
    1 ∈ (broadcast_json ⟨[0], 1⟩ (fun _ => false) [[1]]).2 :=
  ⟨rfl, by decide⟩

/-- Claim C3 (amended): `broadcast_json` iterates the live
`active_connections` list directly rather than a point-in-time snapshot,
so a connection registered while a broadcast is in flight (appended
before the iteration reaches the end of the list) DOES receive the
in-flight event; it stays registered (its send succeeding) and also
receives the next broadcast. -/
theorem c3_amended_live_list_iteration (st : ConnectionManager) (c : Nat)
    (fail : Nat → Bool) (hne : st.active_connections ≠ []) (hnf : fail c = false) :
    c ∈ (broadcast_json st fail [[c]]).2 ∧
    c ∈ ((broadcast_json st fail [[c]]).1).active_connections ∧
    c ∈ (broadcast_json ((broadcast_json st fail [[c]]).1) (fun _ => false) []).2 := by
  obtain ⟨a, rest, hsteq⟩ := List.exists_cons_of_ne_nil hne
  have hcmem : c ∈ (broadcastLoop fail st.active_connections [[c]]).1 := by
    rw [hsteq]
    simp only [broadcastLoop]
    refine List.mem_cons_of_mem a ?_
    rw [sweep_fst]
    exact List.mem_append_right rest (List.mem_singleton.mpr rfl)
  have h1 : c ∈ (broadcast_json st fail [[c]]).2 := by
    simp only [broadcast_json, if_neg hne]
    exact hcmem
  have h2 : c ∈ ((broadcast_json st fail [[c]]).1).active_connections := by
    simp only [broadcast_json, if_neg hne]
    apply mem_foldl_disconnect c _ _ hcmem
    rw [broadcastLoop_snd_filter]
    intro hmf
    have := (List.mem_filter.mp hmf).2
    rw [hnf] at this
    exact Bool.false_ne_true this
  refine ⟨h1, h2, ?_⟩
  rw [broadcast_json_attempted _ _ (List.ne_nil_of_mem h2)]
  exact h2

theorem c3_witness :
    1 ∈ (broadcast_json ⟨[0], 1⟩ (fun _ => false) [[1]]).2 ∧
    1 ∈ ((broadcast_json ⟨[0], 1⟩ (fun _ => false) [[1]]).1).active_connections ∧
    1 ∈ (broadcast_json ((broadcast_json ⟨[0], 1⟩ (fun _ => false) [[1]]).1)
          (fun _ => false) []).2 :=
  c3_amended_live_list_iteration ⟨[0], 1⟩ 1 (fun _ => false) (by decide) rfl

/-- Claim C4 counterexample: the claim says any sequence of connect and
disconnect calls leaves each handle at most once in the registry.
`active_connections` is a plain Python list and `connect` appends without
a membership test, so connecting the same handle twice stores it twice,
and a broadcast then attempts delivery to it twice. -/
theorem c4_counterexample :
    (connect (connect initial_manager 5) 5).active_connections = [5, 5] ∧
    (connect (connect initial_manager 5) 5).active_connections.count 5 = 2 ∧
    (broadcast_json (connect (connect initial_manager 5) 5)
      (fun _ => false) []).2.count 5 = 2 :=
  ⟨rfl, by decide, by decide⟩

/-- Claim C4 (amended): the registry keeps a list, not a set, so
at-most-once membership holds only when no handle is registered twice:
after registering pairwise-distinct connections, each appears exactly
once in `active_connections`, and a failure-free broadcast attempts
delivery of exactly one copy to each. -/
theorem c4_amended_distinct_delivery (cs : List Nat) (hnd : cs.Nodup) :
    (run_ops initial_manager (cs.map ManagerOp.connectOp)).active_connections = cs ∧
    (∀ c ∈ cs,
      (run_ops initial_manager (cs.map ManagerOp.connectOp)).active_connections.count c
        = 1) ∧
    (broadcast_json (run_ops initial_manager (cs.map ManagerOp.connectOp))
      (fun _ => false) []).2 = cs ∧
    (∀ c ∈ cs,
      (broadcast_json (run_ops initial_manager (cs.map ManagerOp.connectOp))
        (fun _ => false) []).2.count c = 1) := by
  have hact : (run_ops initial_manager (cs.map ManagerOp.connectOp)).active_connections
      = cs := by
    rw [run_connects_active cs initial_manager]
    rfl
  have hattempt : (broadcast_json (run_ops initial_manager (cs.map ManagerOp.connectOp))
      (fun _ => false) []).2 = cs := by
    by_cases hcs : cs = []
    · subst hcs
      rw [broadcast_json_empty _ _ _ (by rw [hact])]
    · rw [broadcast_json_attempted _ _ (by rw [hact]; exact hcs), hact]
  refine ⟨hact, ?_, hattempt, ?_⟩
  · intro c hc
    rw [hact]
    exact List.count_eq_one_of_mem hnd hc
  · intro c hc
    rw [hattempt]
    exact List.count_eq_one_of_mem hnd hc

theorem c4_witness :
    (run_ops initial_manager (([1, 2] : List Nat).map ManagerOp.connectOp)).active_connections
      = [1, 2] ∧
    (∀ c ∈ ([1, 2] : List Nat),
      (run_ops initial_manager (([1, 2] : List Nat).map ManagerOp.connectOp)).active_connections.count c
        = 1) ∧
    (broadcast_json (run_ops initial_manager (([1, 2] : List Nat).map ManagerOp.connectOp))
      (fun _ => false) []).2 = [1, 2] ∧
    (∀ c ∈ ([1, 2] : List Nat),
      (broadcast_json (run_ops initial_manager (([1, 2] : List Nat).map ManagerOp.connectOp))
        (fun _ => false) []).2.count c = 1) :=
  c4_amended_distinct_delivery [1, 2] (by decide)

/-- Claim C5: `disconnect` is idempotent: on an absent connection it is a
no-op on both the list and the count; on a present connection it removes
(the first occurrence of) exactly that connection, shortens the list by
exactly one and decrements the count by exactly one, and when the list
has no duplicates the connection is gone afterwards. -/
theorem c5_disconnect_idempotent (st : ConnectionManager) (c : Nat) :
    (c ∉ st.active_connections → disconnect st c = st) ∧
    (c ∈ st.active_connections →
      (disconnect st c).active_connections = st.active_connections.erase c ∧
      (disconnect st c).connection_count = st.connection_count - 1 ∧
      (disconnect st c).active_connections.length + 1 = st.active_connections.length ∧
      (st.active_connections.Nodup → c ∉ (disconnect st c).active_connections)) := by
  constructor
  · intro h
    simp [disconnect, h]
  · intro h
    refine ⟨by simp [disconnect, h], by simp [disconnect, h], ?_, ?_⟩
    · simp only [disconnect, if_pos h, List.length_erase_of_mem h]
      have := List.length_pos_of_mem h
      omega
    · intro hnd
      simp only [disconnect, if_pos h]
      have h1 : (st.active_connections.erase c).count c = 0 := by
        rw [List.count_erase_self, List.count_eq_one_of_mem hnd h]
      exact List.count_eq_zero.mp h1

theorem c5_witness :
    disconnect ⟨[1, 2], 2⟩ 3 = ⟨[1, 2], 2⟩ ∧
    (disconnect ⟨[1, 2], 2⟩ 2).active_connections = ([1, 2] : List Nat).erase 2 ∧
    (disconnect ⟨[1, 2], 2⟩ 2).connection_count = 2 - 1 ∧
    (disconnect ⟨[1, 2], 2⟩ 2).active_connections.length + 1 = 2 ∧
    2 ∉ (disconnect ⟨[1, 2], 2⟩ 2).active_connections :=
  ⟨(c5_disconnect_idempotent ⟨[1, 2], 2⟩ 3).1 (by decide),
   ((c5_disconnect_idempotent ⟨[1, 2], 2⟩ 2).2 (by decide)).1,
   ((c5_disconnect_idempotent ⟨[1, 2], 2⟩ 2).2 (by decide)).2.1,
   ((c5_disconnect_idempotent ⟨[1, 2], 2⟩ 2).2 (by decide)).2.2.1,
   ((c5_disconnect_idempotent ⟨[1, 2], 2⟩ 2).2 (by decide)).2.2.2 (by decide)⟩

/-- Claim C6: after any sequence of connect, disconnect,
send_json_personal and broadcast_json operations (registrations
interleaved with broadcasts included), `connection_count` equals the
length of `active_connections`, and the health endpoint reports exactly
`connection_count` as `connected_clients`. -/
theorem c6_count_matches_live_set (ops : List ManagerOp) (dbUp : Bool) :
    (run_ops initial_manager ops).connection_count =
      ((run_ops initial_manager ops).active_connections.length : Int) ∧
    (health_check (run_ops initial_manager ops) dbUp).connected_clients =
      (run_ops initial_manager ops).connection_count :=
  ⟨countInv_run_ops ops initial_manager countInv_initial, rfl⟩

/-- Claim C7: when the store is unreachable (pool creation fails) or the
change-channel subscription cannot be registered (listener connection or
add_listener fails), `Database.initialize` re-raises and the error
propagates out of the lifespan startup, so the process never reaches the
serving phase. -/
theorem c7_startup_failure_is_fatal (env : PgEnv) (url : String)
    (h : env.pool_ok = false ∨ env.listener_conn_ok = false ∨
      env.add_listener_ok = false) :
    (∃ e, initializeDatabase env = Except.error e) ∧
    (∃ e, lifespan_startup (some url) env = Except.error (StartupError.dbInit e)) ∧
    serves_requests (lifespan_startup (some url) env) = false := by
  obtain ⟨p, l, a⟩ := env
  have herr : ∃ e, initializeDatabase ⟨p, l, a⟩ = Except.error e := by
    cases p <;> cases l <;> cases a <;>
      simp_all [initializeDatabase, setup_notification_listener]
  obtain ⟨e, he⟩ := herr
  refine ⟨⟨e, he⟩, ⟨e, ?_⟩, ?_⟩
  · simp [lifespan_startup, he]
  · simp [lifespan_startup, he, serves_requests]

theorem c7_witness :
    (∃ e, initializeDatabase ⟨false, true, true⟩ = Except.error e) ∧
    (∃ e, lifespan_startup (some "postgres") ⟨false, true, true⟩ =
      Except.error (StartupError.dbInit e)) ∧
    serves_requests (lifespan_startup (some "postgres") ⟨false, true, true⟩) = false :=
  c7_startup_failure_is_fatal ⟨false, true, true⟩ "postgres" (Or.inl rfl)

/-- Claim C8: every outbound push message has one of exactly three
shapes: notification fan-out always broadcasts a database_change message;
the attach push is a personal initial_data message; and a rejected client
request produces a personal error message addressed to the originating
connection only (never a broadcast). -/
theorem c8_outbound_message_shapes :
    (∀ (loaded : Option Json) (act : SendAction), act ∈ handle_notification loaded →
      ∃ d, act = SendAction.broadcastAll (database_change_msg d)) ∧
    (∀ (ws : Nat) (orders : List Json),
      websocket_attach ws orders = SendAction.personal ws (initial_data_msg orders)) ∧
    (∀ (ws : Nat) (data : Json) (r : Option String) (act : SendAction),
      act ∈ websocket_step ws data r →
      ∃ m, act = SendAction.personal ws (error_msg m)) := by
  refine ⟨?_, fun ws orders => rfl, ?_⟩
  · intro loaded act ha
    cases loaded with
    | none => simp [handle_notification, handle_notification_body] at ha
    | some j =>
      cases hj : jlookup j "operation" with
      | none => simp [handle_notification, handle_notification_body, hj] at ha
      | some v =>
        simp only [handle_notification, handle_notification_body, hj,
          List.mem_singleton] at ha
        exact ⟨j, ha⟩
  · intro ws data r act ha
    simp only [websocket_step] at ha
    split at ha
    · split at ha
      · split at ha
        · simp only [List.mem_singleton] at ha
          exact ⟨_, ha⟩
        · simp at ha
      · split at ha
        · split at ha
          · simp only [List.mem_singleton] at ha
            exact ⟨_, ha⟩
          · simp at ha
        · split at ha
          · split at ha
            · simp only [List.mem_singleton] at ha
              exact ⟨_, ha⟩
            · simp at ha
          · simp at ha
    · simp at ha

theorem c8_witness :
    (∃ d, SendAction.broadcastAll
        (database_change_msg (Json.obj [("operation", Json.str "INSERT")])) =
      SendAction.broadcastAll (database_change_msg d)) ∧
    (websocket_attach 3 [] = SendAction.personal 3 (initial_data_msg [])) ∧
    (∃ m, SendAction.personal 7 (error_msg "Failed to create order: boom") =
      SendAction.personal 7 (error_msg m)) :=
  ⟨c8_outbound_message_shapes.1 (some (Json.obj [("operation", Json.str "INSERT")])) _
      (by
        rw [show handle_notification (some (Json.obj [("operation", Json.str "INSERT")]))
            = [SendAction.broadcastAll
                (database_change_msg (Json.obj [("operation", Json.str "INSERT")]))]
          from rfl]
        exact List.mem_singleton.mpr rfl),
   c8_outbound_message_shapes.2.1 3 [],
   c8_outbound_message_shapes.2.2 7 (Json.obj [("type", Json.str "create_order")])
      (some "boom") _
      (by
        rw [show websocket_step 7 (Json.obj [("type", Json.str "create_order")])
            (some "boom")
            = [SendAction.personal 7 (error_msg "Failed to create order: boom")]
          from rfl]
        exact List.mem_singleton.mpr rfl)⟩

/-- Claim C9: database.py imports the name DatabaseChange from models,
but models binds only DatabaseChangE, so importing the database module
raises ImportError for DatabaseChange, importing main fails the same way,
and the application cannot start regardless of DATABASE_URL or store
reachability. -/
theorem c9_database_change_import_error :
    import_database_module_error = some "DatabaseChange" ∧
    import_main_module_error = some "DatabaseChange" ∧
    ∀ (url : Option String) (env : PgEnv),
      app_start url env = Except.error (AppError.importError "DatabaseChange") :=
  ⟨rfl, rfl, fun _ _ => rfl⟩

/-- Claim C10: an OrderUpdate with all fields None makes `update_order`
return None before any SQL statement is issued (the store is untouched,
so the store-side trigger publishes no change event), and the PUT
endpoint then answers 404 "Order not found" even when an order with that
id exists. -/
theorem c10_empty_update_is_404 (store : List OrderRec) (oid : Int) (r : OrderRec)
    (_hr : r ∈ store) (_hid : r.id = oid) :
    db_update_order store oid ⟨none, none, none⟩ = (none, [], store) ∧
    (put_update_order store oid ⟨none, none, none⟩).1 =
      ApiResult.httpError 404 "Order not found" ∧
    (put_update_order store oid ⟨none, none, none⟩).2.1 = [] ∧
    (put_update_order store oid ⟨none, none, none⟩).2.2 = store := by
  have h1 : db_update_order store oid ⟨none, none, none⟩ = (none, [], store) := by
    simp [db_update_order, update_fields_of]
  refine ⟨h1, ?_, ?_, ?_⟩ <;> simp [put_update_order, h1]

theorem c10_witness :
    db_update_order [⟨1, "ann", "mug", "pending"⟩] 1 ⟨none, none, none⟩ =
      (none, [], [⟨1, "ann", "mug", "pending"⟩]) ∧
    (put_update_order [⟨1, "ann", "mug", "pending"⟩] 1 ⟨none, none, none⟩).1 =
      ApiResult.httpError 404 "Order not found" ∧
    (put_update_order [⟨1, "ann", "mug", "pending"⟩] 1 ⟨none, none, none⟩).2.1 = [] ∧
    (put_update_order [⟨1, "ann", "mug", "pending"⟩] 1 ⟨none, none, none⟩).2.2 =
      [⟨1, "ann", "mug", "pending"⟩] :=
  c10_empty_update_is_404 [⟨1, "ann", "mug", "pending"⟩] 1 ⟨1, "ann", "mug", "pending"⟩
    (by decide) (by decide)
